import Mathlib

/-!
Verification of the stream connection manager of `alpaca_trade_api/stream2.py`.

The file embeds the two classes of that module — the per-socket session
`_StreamConn` and the top-level multiplexer `StreamConn` — as executable Lean
definitions and proves properties of the embedded code.  Machine-level
effects are made explicit: outbound control frames become values, sleeps
become recorded durations, and Python exceptions become an error type.
-/

namespace Stream2

/-- Python exception kinds raised by the code paths modelled here.
`valueError` stands for `ValueError`, `exceptionError` for a bare
`Exception`, `connectionError` for `ConnectionError`, `typeError` for
`TypeError` (e.g. from `json.dumps` on a non-serialisable object),
`nameError` for `NameError` (an unbound module-level name), and
`attributeError` for `AttributeError` (attribute access on `None`). -/
inductive PyError where
  | valueError
  | exceptionError
  | connectionError
  | typeError
  | nameError
  | attributeError
deriving DecidableEq

/-- The `channels` argument of `_StreamConn.subscribe` / `unsubscribe`: in the
source it is a `str`, a `list` of topic names, or — on the reconnect replay
path inside `_ensure_ws` — the `set` object `self._streams` itself. -/
inductive PyChannels where
  | pyStr (s : String)
  | pyList (l : List String)
  | pySet (s : Finset String)
deriving DecidableEq

/-- The `isinstance(channels, str)` normalisation at the top of
`subscribe` and `unsubscribe`: a bare string becomes a one-element list. -/
def pyNormalize : PyChannels → PyChannels
  | .pyStr s => .pyList [s]
  | c => c

/-- Python `len(channels)` for the argument shapes that reach the length
test (after normalisation a string has become a list). -/
def pyLen : PyChannels → Nat
  | .pyStr s => s.length
  | .pyList l => l.length
  | .pySet s => s.card

/-- `set(channels)`: the set of topic names the value denotes. -/
def pyToSet : PyChannels → Finset String
  | .pyStr s => {s}
  | .pyList l => l.toFinset
  | .pySet s => s

/-- `json.dumps` applied to the frame dict whose `streams` entry is
`channels`: a `list` of strings serialises, while a Python `set` is not JSON
serialisable and raises `TypeError`. -/
def dumpsStreams : PyChannels → Except PyError (List String)
  | .pyStr s => .ok [s]
  | .pyList l => .ok l
  | .pySet _ => .error .typeError

/-- An outbound control frame, identified by its `action` and the value of
its `streams` field: `listen` for subscribe, `unlisten` for unsubscribe. -/
inductive CtrlFrame where
  | listen (streams : List String)
  | unlisten (streams : List String)
deriving DecidableEq

/-- Result of the tail of `_StreamConn.subscribe` (the statements after its
`_ensure_ws` call, reached only with the socket open): the subscription set
after the `|=` union, the frames actually sent, and the exception
propagated, if any.  Note the union executes before `json.dumps`, so the
set is already updated when the dump raises. -/
structure SendOutcome where
  streams : Finset String
  frames : List CtrlFrame
  raised : Option PyError
deriving DecidableEq

/-- The tail of `_StreamConn.subscribe`: `self._streams |= set(channels)`,
then `self._ws.send(json.dumps({action: listen, data: {streams: channels}}))`.
When `channels` is the `set` object itself (the reconnect replay path) the
dump raises `TypeError` and no frame is sent. -/
def subscribeSend (streams : Finset String) (channels : PyChannels) :
    SendOutcome :=
  let streams2 := streams ∪ pyToSet channels
  match dumpsStreams channels with
  | .error e => ⟨streams2, [], some e⟩
  | .ok l => ⟨streams2, [.listen l], none⟩

/-- Observable result of one run of `_StreamConn._ensure_ws` entered with
`self._ws = None` and `self._retries = 0`: the number of `_connect` attempts
made, the sleep durations performed after failed attempts in chronological
order (seconds), the final subscription set, the control frames sent, and
the exception propagated, if any: `connectionError` when the budget is
exhausted (the `while`-`else` raise of `ConnectionError`), or the
`typeError` escaping from the replay (`subscribe(self._streams)` passes a
`set` to `json.dumps`; `TypeError` is not a `websockets.WebSocketException`
so the `except` clause does not catch it). -/
structure EnsureOutcome where
  attempts : Nat
  waits : List Nat
  streams : Finset String
  frames : List CtrlFrame
  raised : Option PyError
deriving DecidableEq

/-- The retry loop of `_StreamConn._ensure_ws`.  `failsAt k` tells whether
the k-th `_connect` attempt (0-based) raises a
`websockets.WebSocketException`.  The loop body: while `retries ≤ retryMax`,
attempt `_connect`; on failure increment `self._retries` and sleep
`self._retry_wait * self._retry` seconds — the constant product of the wait
and the maximum, since `self._retry` never changes; on success, when the
subscription set is non-empty, replay it via `subscribe(self._streams)`
(whose nested `_ensure_ws` returns at once because the socket is now open)
and stop.  `fuel` bounds the recursion; it is set to `retryMax + 2`, enough
for `retryMax + 1` failing iterations plus the final loop-condition check,
so the zero-fuel branch is unreachable from `ensureWs`. -/
def ensureWsGo (retryWait retryMax : Nat) (failsAt : Nat → Bool)
    (streams : Finset String) : Nat → Nat → Nat → EnsureOutcome
  | 0, _, attempts => ⟨attempts, [], streams, [], some .connectionError⟩
  | fuel + 1, retries, attempts =>
    if retries ≤ retryMax then
      if failsAt attempts then
        let o := ensureWsGo retryWait retryMax failsAt streams fuel
          (retries + 1) (attempts + 1)
        ⟨o.attempts, retryWait * retryMax :: o.waits, o.streams, o.frames,
          o.raised⟩
      else
        if streams = ∅ then ⟨attempts + 1, [], streams, [], none⟩
        else
          let s := subscribeSend streams (.pySet streams)
          ⟨attempts + 1, [], s.streams, s.frames, s.raised⟩
    else ⟨attempts, [], streams, [], some .connectionError⟩

/-- `_StreamConn._ensure_ws` entered with `self._ws = None` and
`self._retries = 0` (its value at construction and after any successful
handshake). -/
def ensureWs (retryWait retryMax : Nat) (failsAt : Nat → Bool)
    (streams : Finset String) : EnsureOutcome :=
  ensureWsGo retryWait retryMax failsAt streams (retryMax + 2) 0 0

theorem ensureWsGo_all_fail (w mx : Nat) (failsAt : Nat → Bool)
    (streams : Finset String) (hf : ∀ k, failsAt k = true) :
    ∀ m r a, r + m = mx + 2 →
      ensureWsGo w mx failsAt streams m r a =
        ⟨a + (m - 1), List.replicate (m - 1) (w * mx), streams, [],
          some .connectionError⟩ := by
  intro m
  induction m with
  | zero =>
    intro r a _
    simp [ensureWsGo]
  | succ m ih =>
    intro r a hr
    by_cases hrm : r ≤ mx
    · have hm : 1 ≤ m := by omega
      rw [ensureWsGo]
      simp only [hrm, if_true, hf a, if_true]
      rw [ih (r + 1) (a + 1) (by omega)]
      have h1 : a + 1 + (m - 1) = a + (m + 1 - 1) := by omega
      have h2 : m + 1 - 1 = (m - 1) + 1 := by omega
      simp only [EnsureOutcome.mk.injEq, h1, true_and]
      rw [h2, List.replicate_succ]
      simp
    · have hm : m = 0 := by omega
      rw [ensureWsGo]
      simp [hrm, hm]

/-- C1 (amended): when every reconnect attempt fails with a transport error,
`_ensure_ws` makes exactly `retryMax + 1` connect attempts (the loop runs
while `self._retries ≤ self._retry` starting from 0), sleeps
`retryWait * retryMax` seconds — a constant, not linear in the attempt
number — after each of the `retryMax + 1` failed attempts, and then raises
`ConnectionError` with message Max Retries Exceeded. -/
theorem ensureWs_all_fail (w mx : Nat) (failsAt : Nat → Bool)
    (streams : Finset String) (hf : ∀ k, failsAt k = true) :
    ensureWs w mx failsAt streams =
      ⟨mx + 1, List.replicate (mx + 1) (w * mx), streams, [],
        some .connectionError⟩ := by
  have h := ensureWsGo_all_fail w mx failsAt streams hf (mx + 2) 0 0 (by omega)
  simpa [ensureWs] using h

/-- Witness for C1: at the default budget (3 retries, 3-second wait) and all
attempts failing, the loop makes 4 attempts, sleeps 9 seconds four times,
and raises `ConnectionError`. -/
theorem ensureWs_all_fail_witness :
    ensureWs 3 3 (fun _ => true) ∅ =
      ⟨4, List.replicate 4 9, ∅, [], some PyError.connectionError⟩ :=
  ensureWs_all_fail 3 3 (fun _ => true) ∅ (fun _ => rfl)

/-- Counterexample for C1 as stated: with budget 3 and every attempt
failing, the code makes 4 attempts (not 3) and waits 9, 9, 9, 9 seconds
(not `retry_wait * attempt_number`, i.e. not 3, 6, 9). -/
theorem c1_counterexample :
    (ensureWs 3 3 (fun _ => true) ∅).attempts = 4 ∧
    (ensureWs 3 3 (fun _ => true) ∅).waits = [9, 9, 9, 9] ∧
    ¬((ensureWs 3 3 (fun _ => true) ∅).attempts = 3 ∧
      (ensureWs 3 3 (fun _ => true) ∅).waits = [3, 6, 9]) := by
  refine ⟨rfl, rfl, ?_⟩
  intro h
  exact absurd h.1 (by decide)

/-- C7: a session holding the subscription set {Q.AAPL} loses its socket and
reconnects; the first `_connect` attempt succeeds, so the replay
`subscribe(self._streams)` runs — and its `json.dumps` call raises
`TypeError` because `channels` is the `set` object itself.  No control frame
is ever sent (the subscription set does stay unchanged). -/
theorem c7_replay_typeerror :
    ensureWs 3 3 (fun _ => false) {"Q.AAPL"} =
      ⟨1, [], {"Q.AAPL"}, [], some PyError.typeError⟩ := by
  decide

/-- The handshake reply of `_StreamConn._connect`, as the code reads it:
`msg.get("data", {}).get("status")` and `msg.get("data", {}).get("error")`,
each a string or absent. -/
structure AuthReply where
  status : Option String
  error : Option String
deriving DecidableEq

/-- Python truthiness of an optional string field: present and non-empty. -/
def truthyStr : Option String → Bool
  | none => false
  | some s => decide (s ≠ "")

/-- Outcome of `_StreamConn._connect` once the handshake reply is parsed.
On `raised`, the exception propagates before `self._ws = ws` and before the
`ensure_future(self._consume_msg())` call, so the socket field stays `None`
and no receive loop starts.  On `ok`, the fields record `self._retries`
(reset to 0 on every success path), whether `self._ws` was assigned, and
whether the consume task was started. -/
inductive ConnectOutcome where
  | raised (e : PyError)
  | ok (retries : Nat) (wsOpen : Bool) (consumeStarted : Bool)
deriving DecidableEq

/-- The branch structure of `_StreamConn._connect` on the handshake reply:
a truthy status different from authorized raises `ValueError`; otherwise
(status absent or falsy) a truthy error field raises a bare `Exception`;
every other reply resets `self._retries` to 0, assigns the socket, and
starts the consume task. -/
def connectHandshake (_retries : Nat) (msg : AuthReply) : ConnectOutcome :=
  if truthyStr msg.status then
    if msg.status.getD "" ≠ "authorized" then .raised .valueError
    else .ok 0 true true
  else if truthyStr msg.error then .raised .exceptionError
  else .ok 0 true true

/-- The failure condition exactly as claim C2 words it: the reply carries a
non-authorized status, or carries an error field. -/
def claimC2Fails (msg : AuthReply) : Bool :=
  (msg.status.isSome && decide (msg.status.getD "" ≠ "authorized")) ||
    msg.error.isSome

/-- The failure condition the code implements: a truthy status other than
authorized, or no truthy status and a truthy error field. -/
def connectFailCond (msg : AuthReply) : Bool :=
  if truthyStr msg.status then decide (msg.status.getD "" ≠ "authorized")
  else truthyStr msg.error

/-- Counterexample for C2 as stated: the reply
`data = {status: authorized, error: bad key}` carries an error field, so the
claim requires `connect` to fail — but the code takes the status branch,
ignores the error field, succeeds, resets the retry counter and starts the
receive loop. -/
theorem c2_counterexample :
    claimC2Fails ⟨some "authorized", some "bad key"⟩ = true ∧
    connectHandshake 5 ⟨some "authorized", some "bad key"⟩ =
      .ok 0 true true := by
  decide

/-- C2 (amended): `connect` fails exactly when the reply carries a truthy
status other than authorized (raising `ValueError`), or carries no truthy
status but a truthy error field (raising a bare `Exception`); in either
case no receive loop is started.  Any other reply — including one whose
error field accompanies an authorized status, and one with empty-string
fields — is an implicit success: the retry counter is reset to 0, the
socket assigned, and the receive loop started as an independent task. -/
theorem connect_auth_characterisation (retries : Nat) (msg : AuthReply) :
    connectHandshake retries msg =
      (if connectFailCond msg then
        .raised (if truthyStr msg.status then .valueError
          else .exceptionError)
       else .ok 0 true true) := by
  rcases msg with ⟨st, er⟩
  simp only [connectHandshake, connectFailCond]
  by_cases hs : truthyStr st = true
  · by_cases ha : Option.getD st "" ≠ "authorized" <;> simp [hs, ha]
  · by_cases he : truthyStr er = true <;> simp [hs, he]

/-- The `_StreamConn` fields that `subscribe` and `unsubscribe` touch:
`self._streams`, whether `self._ws` is not `None`, and the retry parameters
`self._retry` (maximum) and `self._retry_wait` (seconds). -/
structure SessionState where
  streams : Finset String
  wsOpen : Bool
  retryMax : Nat
  retryWait : Nat
deriving DecidableEq

/-- Observable result of one `subscribe` or `unsubscribe` call:
`self._streams` afterwards, the control frames sent on the socket,
whether the call entered the `_ensure_ws` connection path, and the
exception propagated, if any. -/
structure MethodOutcome where
  streams : Finset String
  frames : List CtrlFrame
  connectAttempted : Bool
  raised : Option PyError
deriving DecidableEq

/-- `_StreamConn.unsubscribe`: normalises a `str` argument; for a non-empty
channel list it sends one `unlisten` frame via `self._ws.send` — with no
`_ensure_ws` call and no mutation of `self._streams`.  With the socket
closed (`self._ws is None`) the attribute access on `None` raises
`AttributeError` (Python evaluates `self._ws.send` before the argument).
An empty input does nothing. -/
def unsubscribe (st : SessionState) (channels0 : PyChannels) :
    MethodOutcome :=
  let channels := pyNormalize channels0
  if pyLen channels = 0 then ⟨st.streams, [], false, none⟩
  else if st.wsOpen then
    match dumpsStreams channels with
    | .error e => ⟨st.streams, [], false, some e⟩
    | .ok l => ⟨st.streams, [.unlisten l], false, none⟩
  else ⟨st.streams, [], false, some .attributeError⟩

/-- Counterexample for C3 as stated: unsubscribing Q.AAPL from a session
subscribed to exactly Q.AAPL leaves the subscription set equal to {Q.AAPL}
(no set difference is performed), and unsubscribing Q.AAPL from a session
with an empty subscription set — a topic that is not subscribed — sends an
`unlisten` frame rather than being a frameless no-op. -/
theorem c3_counterexample :
    (unsubscribe ⟨{"Q.AAPL"}, true, 3, 3⟩ (.pyList ["Q.AAPL"])).streams =
      {"Q.AAPL"} ∧
    ¬((unsubscribe ⟨{"Q.AAPL"}, true, 3, 3⟩ (.pyList ["Q.AAPL"])).streams =
      ∅) ∧
    (unsubscribe ⟨∅, true, 3, 3⟩ (.pyList ["Q.AAPL"])).frames =
      [.unlisten ["Q.AAPL"]] ∧
    ¬((unsubscribe ⟨∅, true, 3, 3⟩ (.pyList ["Q.AAPL"])).frames = []) := by
  refine ⟨rfl, ?_, rfl, ?_⟩ <;> decide

/-- C3 (amended): `unsubscribe` never mutates the subscription set and never
attempts a connection; on an empty input it is a no-op; on a non-empty
input with an open socket it sends exactly one `unlisten` frame listing the
given topics verbatim — whether or not they are subscribed — and with no
open socket it raises `AttributeError` instead of sending. -/
theorem unsubscribe_characterisation (st : SessionState) (l : List String) :
    unsubscribe st (.pyList l) =
      (if l = [] then ⟨st.streams, [], false, none⟩
       else if st.wsOpen then ⟨st.streams, [.unlisten l], false, none⟩
       else ⟨st.streams, [], false, some .attributeError⟩) := by
  cases l with
  | nil => simp [unsubscribe, pyNormalize, pyLen]
  | cons x xs =>
    by_cases hw : st.wsOpen <;>
      simp [unsubscribe, pyNormalize, pyLen, dumpsStreams, hw]

/-- `_StreamConn.subscribe`: normalises a `str` argument; an empty input
does nothing; otherwise the call first awaits `_ensure_ws` — immediate when
`self._ws` is already open, a full connect-with-retries sequence (driven
here by `failsAt`) when it is `None` — and then unions the channels into
`self._streams` and sends one `listen` frame.  An exception escaping
`_ensure_ws` (budget exhaustion, or the replay `TypeError`) propagates
before the union and the send. -/
def subscribe (st : SessionState) (failsAt : Nat → Bool)
    (channels0 : PyChannels) : MethodOutcome :=
  let channels := pyNormalize channels0
  if pyLen channels = 0 then ⟨st.streams, [], false, none⟩
  else if st.wsOpen then
    let o := subscribeSend st.streams channels
    ⟨o.streams, o.frames, false, o.raised⟩
  else
    let e := ensureWs st.retryWait st.retryMax failsAt st.streams
    match e.raised with
    | some err => ⟨e.streams, e.frames, true, some err⟩
    | none =>
      let o := subscribeSend e.streams channels
      ⟨o.streams, e.frames ++ o.frames, true, o.raised⟩

/-- C8: `subscribe` unions into the subscription set, so a topic subscribed
twice — in one call or in two successive calls — occurs once; an empty
input is a no-op that does not attempt a connection whatever the socket
state; and a non-empty `subscribe` on a session with no open socket enters
the lazy `_ensure_ws` connection path first. -/
theorem subscribe_idempotent_lazy (S : Finset String) (mw mr : Nat)
    (failsAt : Nat → Bool) (t : String) :
    (subscribe ⟨S, true, mw, mr⟩ failsAt (.pyList [t, t])).streams =
      S ∪ {t} ∧
    (subscribe ⟨S ∪ {t}, true, mw, mr⟩ failsAt (.pyList [t])).streams =
      S ∪ {t} ∧
    subscribe ⟨S, true, mw, mr⟩ failsAt (.pyList []) =
      ⟨S, [], false, none⟩ ∧
    subscribe ⟨S, false, mw, mr⟩ failsAt (.pyList []) =
      ⟨S, [], false, none⟩ ∧
    (subscribe ⟨S, false, mw, mr⟩ failsAt
        (.pyList [t])).connectAttempted = true := by
  refine ⟨?_, ?_, ?_, ?_, ?_⟩
  · simp [subscribe, pyNormalize, pyLen, subscribeSend, pyToSet,
      dumpsStreams]
  · simp [subscribe, pyNormalize, pyLen, subscribeSend, pyToSet,
      dumpsStreams, Finset.union_assoc]
  · simp [subscribe, pyNormalize, pyLen]
  · simp [subscribe, pyNormalize, pyLen]
  · simp only [subscribe, pyNormalize, pyLen]
    cases h : (ensureWs mr mw failsAt S).raised <;> simp [h]

/-- `StreamConn._data_prefixes` as constructed in `__init__`:
`("Q.", "T.", "AM.", "alpacadatav1/")`.  There is no bare `A.` entry. -/
def dataPrefixes : List String := ["Q.", "T.", "AM.", "alpacadatav1/"]

/-- The three classes the classification loop of `StreamConn.subscribe`
sorts a channel into. -/
inductive TopicClass where
  | trading
  | data
  | invalid
deriving DecidableEq

/-- Python `c.startswith(p)`, computed on the character lists so that it
evaluates by kernel reduction. -/
def strStartsWith (c p : String) : Bool :=
  p.data.isPrefixOf c.data

/-- One iteration of the classification loop of `StreamConn.subscribe`:
`trade_updates` and `account_updates` go to the trading session, a channel
starting with one of `self._data_prefixes` goes to the data session, and
anything else raises `ValueError` (unknown channel). -/
def classifyTopic (c : String) : TopicClass :=
  if c = "trade_updates" ∨ c = "account_updates" then .trading
  else if dataPrefixes.any (fun p => strStartsWith c p) then .data
  else .invalid

/-- The whole classification loop: partitions the channels, in order, into
the trading and data lists, raising `ValueError` at the first unknown
channel — before any frame is sent, since the sends follow the loop. -/
def muxPartition : List String → Except PyError (List String × List String)
  | [] => .ok ([], [])
  | c :: rest =>
    match classifyTopic c with
    | .trading =>
      match muxPartition rest with
      | .error e => .error e
      | .ok (t, d) => .ok (c :: t, d)
    | .data =>
      match muxPartition rest with
      | .error e => .error e
      | .ok (t, d) => .ok (t, c :: d)
    | .invalid => .error .valueError

/-- Observable result of `StreamConn.subscribe`: the frames sent on the
trading session and on the data session, and the exception raised, if
any.  When classification raises, no frame is sent on either session. -/
structure MuxSubOutcome where
  tradingFrames : List CtrlFrame
  dataFrames : List CtrlFrame
  raised : Option PyError
deriving DecidableEq

/-- `StreamConn.subscribe` with both underlying sessions connected and
sending successfully: after classification, each non-empty list is sent as
one `listen` frame on its session; a kind with no topics skips its session
entirely. -/
def muxSubscribe (channels : List String) : MuxSubOutcome :=
  match muxPartition channels with
  | .error e => ⟨[], [], some e⟩
  | .ok (t, d) =>
    ⟨if t = [] then [] else [.listen t],
     if d = [] then [] else [.listen d], none⟩

/-- Counterexample for C4 as stated: the claim lists `A.` among the
recognized data prefixes, but `self._data_prefixes` has no bare `A.`
entry, so `A.AAPL` is classified invalid (not data) and subscribing to it
raises `ValueError` with no frame sent on either session. -/
theorem c4_counterexample :
    classifyTopic "A.AAPL" = .invalid ∧
    ¬(classifyTopic "A.AAPL" = .data) ∧
    muxSubscribe ["A.AAPL"] = ⟨[], [], some .valueError⟩ := by
  decide

/-- C4 (amended): classification is static and total — every channel is
trading (`trade_updates`, `account_updates`), data (prefixes `Q.`, `T.`,
`AM.`, `alpacadatav1/`; a bare `A.` prefix is not recognized), or invalid —
and whenever the input list contains an invalid channel, `subscribe`
raises `ValueError` and no `listen` frame is sent on either session. -/
theorem mux_subscribe_invalid (channels : List String) (c : String)
    (hc : c ∈ channels) (hinv : classifyTopic c = .invalid) :
    muxSubscribe channels = ⟨[], [], some .valueError⟩ := by
  have key : muxPartition channels = .error .valueError := by
    induction channels with
    | nil => cases hc
    | cons x rest ih =>
      rcases List.mem_cons.1 hc with hx | hr
      · subst hx
        simp [muxPartition, hinv]
      · cases hcl : classifyTopic x <;>
          simp [muxPartition, hcl, ih hr]
  simp [muxSubscribe, key]

/-- Witness for C4 (amended): subscribing to `[trade_updates, Z.AAPL]`
fails with `ValueError` and sends nothing, because `Z.AAPL` matches no
known name or prefix. -/
theorem mux_subscribe_invalid_witness :
    muxSubscribe ["trade_updates", "Z.AAPL"] =
      ⟨[], [], some PyError.valueError⟩ :=
  mux_subscribe_invalid ["trade_updates", "Z.AAPL"] "Z.AAPL"
    (by decide) (by decide)

/-- A raw decoded payload (the `msg[data]` dict), kept abstract as a list
of key-value pairs: `_cast` either wraps it in a typed constructor or
passes it through unchanged. -/
abbrev Payload := List (String × String)

/-- What `_StreamConn._cast` can evaluate to on the branches that do not
raise: `arm.Account(**data)` for `account_updates`, `asm.TradeBase(**data)`
for `trade_updates`, or the raw payload unchanged. -/
inductive CastValue where
  | account (d : Payload)
  | tradeUpdate (d : Payload)
  | raw (d : Payload)
deriving DecidableEq

/-- `_StreamConn._cast`, branch for branch.  The channels are compared by
exact string equality — `T`, `Q`, `AM`, `A`, not the prefixed forms
`T.`/`Q.`/`AM.` that inbound data frames actually carry — and the
constructors those four branches call live on `psm`, a name never bound in
stream2.py (the module imports `arm` and `asm` only), so evaluating them
raises `NameError`.  Every other channel falls through to the raw
payload. -/
def castData (channel : String) (data : Payload) :
    Except PyError CastValue :=
  if channel = "account_updates" then .ok (.account data)
  else if channel = "T" then .error .nameError
  else if channel = "Q" then .error .nameError
  else if channel = "AM" then .error .nameError
  else if channel = "A" then .error .nameError
  else if channel = "trade_updates" then .ok (.tradeUpdate data)
  else .ok (.raw data)

/-- A registered handler as `_dispatch` sees it: `hid` identifies the
coroutine function, `accepts` is the semantics of the stored compiled
pattern — the truthiness of `pat.match(channel)`, a regex match anchored at
the start of the topic string. -/
structure Handler where
  hid : Nat
  accepts : String → Bool

/-- One inbound frame as the receive loop sees it: `fid` is its position in
socket arrival order, `stream` the value of its `stream` field (`none` when
the key is absent from the decoded message), and `data` the `msg[data]`
payload handed to `_cast`. -/
structure Frame where
  fid : Nat
  stream : Option String
  data : Payload

/-- The actions the consume task performs, in the order it performs them:
`read fid` is `r = await ws.recv()` returning frame `fid`; `cast hid fid`
is the evaluation of `ent = self._cast(channel, msg[data])` for handler
`hid` — a call that may raise (see `castData`); `invoke hid fid` is the
start of `await handler(self, channel, ent)`; and `complete hid fid` is
that awaited coroutine finishing — the `await` suspends the consume task
until then, so everything the loop does afterwards follows the
completion. -/
inductive Ev where
  | read (fid : Nat)
  | cast (hid fid : Nat)
  | invoke (hid fid : Nat)
  | complete (hid fid : Nat)
deriving DecidableEq

/-- `_StreamConn._dispatch`: iterates the handler dict in insertion order;
for each handler whose pattern matches the channel it evaluates
`ent = self._cast(channel, msg[data])` — which raises `NameError` on the
channels `T`, `Q`, `AM`, `A` (see `castData`), aborting the loop before
that handler is invoked and propagating the exception — and otherwise
awaits the handler to completion before moving to the next handler.
Returns the events performed and the exception escaping `_dispatch`, if
any. -/
def dispatchTrace (handlers : List Handler) (channel : String)
    (data : Payload) (fid : Nat) : List Ev × Option PyError :=
  match handlers with
  | [] => ([], none)
  | h :: rest =>
    if h.accepts channel then
      match castData channel data with
      | .error e => ([.cast h.hid fid], some e)
      | .ok _ =>
        let o := dispatchTrace rest channel data fid
        (.cast h.hid fid :: .invoke h.hid fid :: .complete h.hid fid ::
          o.1, o.2)
    else dispatchTrace rest channel data fid

/-- The part of one receive-loop iteration that follows the read:
`stream = msg.get(stream)` and, when the result `is not None` — so the
empty string passes the test — the awaited `_dispatch` call on the frame
payload.  A frame with no `stream` key contributes nothing and raises
nothing. -/
def frameTail (handlers : List Handler) (f : Frame) :
    List Ev × Option PyError :=
  match f.stream with
  | none => ([], none)
  | some s => dispatchTrace handlers s f.data f.fid

/-- `_StreamConn._consume_msg`: reads frames strictly in arrival order.
An exception escaping the awaited `_dispatch` (such as the caster
`NameError`) is not a `websockets.WebSocketException`, so the except
clause does not catch it: the receive loop dies there — no further frame
is read — and the exception is recorded in the second component.  The end
of the frame list models the socket simply carrying no further frames,
not a termination of the loop. -/
def consumeTrace (handlers : List Handler) :
    List Frame → List Ev × Option PyError
  | [] => ([], none)
  | f :: rest =>
    match frameTail handlers f with
    | (evs, some e) => (.read f.fid :: evs, some e)
    | (evs, none) =>
      let o := consumeTrace handlers rest
      (.read f.fid :: (evs ++ o.1), o.2)

/-- `a` occurs strictly before `b` in the event list `t`. -/
def evBefore (t : List Ev) (a b : Ev) : Prop :=
  ∃ l1 l2 l3, t = l1 ++ a :: l2 ++ b :: l3

/-- The event list `_dispatch` produces when no cast raises: cast,
invocation and completion for each matching handler in insertion order
(equal to the events of `dispatchTrace` by `dispatchTrace_ok`). -/
def dispatchEventsOk (handlers : List Handler) (channel : String)
    (fid : Nat) : List Ev :=
  handlers.flatMap (fun h =>
    if h.accepts channel then
      [.cast h.hid fid, .invoke h.hid fid, .complete h.hid fid]
    else [])

theorem dispatchTrace_ok (l : List Handler) (s : String) (d : Payload)
    (fid : Nat) (v : CastValue) (hcast : castData s d = .ok v) :
    dispatchTrace l s d fid = (dispatchEventsOk l s fid, none) := by
  induction l with
  | nil => simp [dispatchTrace, dispatchEventsOk]
  | cons x xs ih =>
    by_cases hx : x.accepts s = true <;>
      simp [dispatchTrace, dispatchEventsOk, hx, hcast, ih]

theorem consumeTrace_cons_ok (handlers : List Handler) (f : Frame)
    (l : List Frame) (evs : List Ev)
    (hft : frameTail handlers f = (evs, none)) :
    consumeTrace handlers (f :: l) =
      (.read f.fid :: (evs ++ (consumeTrace handlers l).1),
        (consumeTrace handlers l).2) := by
  simp [consumeTrace, hft]

theorem consumeTrace_append_ok (handlers : List Handler)
    (l1 l2 : List Frame) (hok : (consumeTrace handlers l1).2 = none) :
    consumeTrace handlers (l1 ++ l2) =
      ((consumeTrace handlers l1).1 ++ (consumeTrace handlers l2).1,
        (consumeTrace handlers l2).2) := by
  induction l1 with
  | nil => simp [consumeTrace]
  | cons f rest ih =>
    rcases hft : frameTail handlers f with ⟨evs, err⟩
    cases err with
    | some e => simp [consumeTrace, hft] at hok
    | none =>
      rw [consumeTrace_cons_ok handlers f rest evs hft] at hok
      simp at hok
      rw [List.cons_append,
        consumeTrace_cons_ok handlers f (rest ++ l2) evs hft,
        consumeTrace_cons_ok handlers f rest evs hft, ih hok]
      simp [List.append_assoc]

theorem consumeTrace_cons_head (handlers : List Handler) (g : Frame)
    (l : List Frame) :
    ∃ tail, (consumeTrace handlers (g :: l)).1 = .read g.fid :: tail := by
  rcases hft : frameTail handlers g with ⟨evs, err⟩
  cases err with
  | some e => exact ⟨evs, by simp [consumeTrace, hft]⟩
  | none =>
    exact ⟨evs ++ (consumeTrace handlers l).1, by simp [consumeTrace, hft]⟩

/-- Fidelity check of the dispatch error path: on a frame carrying the
exact channel `T`, the cast for the first matching handler raises
`NameError`, that handler is never invoked, the receive loop dies, and the
following frame is never read. -/
theorem consumeTrace_cast_error_kills_loop :
    consumeTrace [⟨0, fun _ => true⟩]
        [⟨0, some "T", []⟩, ⟨1, some "Q.AAPL", []⟩] =
      ([.read 0, .cast 0 0], some .nameError) := rfl

/-- Counterexample for C5 as stated: two always-matching handlers and two
frames whose topic casts without raising.  In the trace the consume task
actually produces, the completion of handler 0 on frame 0 strictly
precedes both the invocation of handler 1 on the same frame and the read
of frame 1 — the loop awaited the handler. -/
theorem c5_counterexample :
    consumeTrace [⟨0, fun _ => true⟩, ⟨1, fun _ => true⟩]
        [⟨0, some "Q.AAPL", []⟩, ⟨1, some "Q.AAPL", []⟩] =
      ([.read 0, .cast 0 0, .invoke 0 0, .complete 0 0,
        .cast 1 0, .invoke 1 0, .complete 1 0,
        .read 1, .cast 0 1, .invoke 0 1, .complete 0 1,
        .cast 1 1, .invoke 1 1, .complete 1 1], none) ∧
    evBefore (consumeTrace [⟨0, fun _ => true⟩, ⟨1, fun _ => true⟩]
        [⟨0, some "Q.AAPL", []⟩, ⟨1, some "Q.AAPL", []⟩]).1
      (.complete 0 0) (.invoke 1 0) ∧
    evBefore (consumeTrace [⟨0, fun _ => true⟩, ⟨1, fun _ => true⟩]
        [⟨0, some "Q.AAPL", []⟩, ⟨1, some "Q.AAPL", []⟩]).1
      (.complete 0 0) (.read 1) := by
  refine ⟨rfl, ?_, ?_⟩
  · exact ⟨[.read 0, .cast 0 0, .invoke 0 0], [.cast 1 0],
      [.complete 1 0, .read 1, .cast 0 1, .invoke 0 1, .complete 0 1,
       .cast 1 1, .invoke 1 1, .complete 1 1], rfl⟩
  · exact ⟨[.read 0, .cast 0 0, .invoke 0 0],
      [.cast 1 0, .invoke 1 0, .complete 1 0],
      [.cast 0 1, .invoke 0 1, .complete 0 1,
       .cast 1 1, .invoke 1 1, .complete 1 1], rfl⟩

/-- C5 (amended): dispatch is sequential and blocking.  For any handler
list containing a matching handler h and, later in insertion order, a
matching handler h2, and any frame list containing a frame f whose topic
the caster accepts without raising and a later frame g, when no dispatch
exception kills the loop among the frames before f or between f and g: in
the trace the receive loop produces, the completion of h on f strictly
precedes the invocation of h2 on f, and strictly precedes the read of g —
the loop awaits each matched handler before dispatching the next one and
before reading any subsequent frame.  (When the cast raises instead —
exact channels `T`, `Q`, `AM`, `A`, see C6 — no handler is invoked at all
and the loop dies: `consumeTrace_cast_error_kills_loop`.) -/
theorem dispatch_sequential (hs1 hs2 hs3 : List Handler)
    (h h2 : Handler) (fs1 fs2 fs3 : List Frame) (f g : Frame) (s : String)
    (v : CastValue)
    (hm : h.accepts s = true) (hm2 : h2.accepts s = true)
    (hf : f.stream = some s) (hcast : castData s f.data = .ok v)
    (hfs1 : (consumeTrace (hs1 ++ h :: hs2 ++ h2 :: hs3) fs1).2 = none)
    (hfs2 : (consumeTrace (hs1 ++ h :: hs2 ++ h2 :: hs3) fs2).2 = none) :
    evBefore
      (consumeTrace (hs1 ++ h :: hs2 ++ h2 :: hs3)
        (fs1 ++ f :: fs2 ++ g :: fs3)).1
      (.complete h.hid f.fid) (.invoke h2.hid f.fid) ∧
    evBefore
      (consumeTrace (hs1 ++ h :: hs2 ++ h2 :: hs3)
        (fs1 ++ f :: fs2 ++ g :: fs3)).1
      (.complete h.hid f.fid) (.read g.fid) := by
  simp only [List.append_assoc, List.cons_append] at hfs1 hfs2 ⊢
  obtain ⟨gtail, hg⟩ :=
    consumeTrace_cons_head (hs1 ++ h :: (hs2 ++ h2 :: hs3)) g fs3
  have hft : frameTail (hs1 ++ h :: (hs2 ++ h2 :: hs3)) f =
      (dispatchEventsOk (hs1 ++ h :: (hs2 ++ h2 :: hs3)) s f.fid,
        none) := by
    simp only [frameTail, hf]
    exact dispatchTrace_ok _ _ _ _ v hcast
  have key : (consumeTrace (hs1 ++ h :: (hs2 ++ h2 :: hs3))
      (fs1 ++ f :: (fs2 ++ g :: fs3))).1 =
      (consumeTrace (hs1 ++ h :: (hs2 ++ h2 :: hs3)) fs1).1 ++
        Ev.read f.fid ::
          (dispatchEventsOk (hs1 ++ h :: (hs2 ++ h2 :: hs3)) s f.fid ++
            ((consumeTrace (hs1 ++ h :: (hs2 ++ h2 :: hs3)) fs2).1 ++
              Ev.read g.fid :: gtail)) := by
    rw [consumeTrace_append_ok _ fs1 (f :: (fs2 ++ g :: fs3)) hfs1,
      consumeTrace_cons_ok _ f (fs2 ++ g :: fs3) _ hft,
      consumeTrace_append_ok _ fs2 (g :: fs3) hfs2]
    simp [hg, List.append_assoc]
  have hd : dispatchEventsOk (hs1 ++ h :: (hs2 ++ h2 :: hs3)) s f.fid =
      dispatchEventsOk hs1 s f.fid ++
        Ev.cast h.hid f.fid :: Ev.invoke h.hid f.fid ::
          Ev.complete h.hid f.fid ::
          (dispatchEventsOk hs2 s f.fid ++
            Ev.cast h2.hid f.fid :: Ev.invoke h2.hid f.fid ::
              Ev.complete h2.hid f.fid ::
              dispatchEventsOk hs3 s f.fid) := by
    simp [dispatchEventsOk, List.flatMap_append, List.flatMap_cons,
      hm, hm2]
  constructor
  · refine ⟨(consumeTrace (hs1 ++ h :: (hs2 ++ h2 :: hs3)) fs1).1 ++
      Ev.read f.fid :: (dispatchEventsOk hs1 s f.fid ++
        [Ev.cast h.hid f.fid, Ev.invoke h.hid f.fid]),
      dispatchEventsOk hs2 s f.fid ++ [Ev.cast h2.hid f.fid],
      Ev.complete h2.hid f.fid :: (dispatchEventsOk hs3 s f.fid ++
        ((consumeTrace (hs1 ++ h :: (hs2 ++ h2 :: hs3)) fs2).1 ++
          Ev.read g.fid :: gtail)), ?_⟩
    rw [key, hd]
    simp [List.append_assoc]
  · refine ⟨(consumeTrace (hs1 ++ h :: (hs2 ++ h2 :: hs3)) fs1).1 ++
      Ev.read f.fid :: (dispatchEventsOk hs1 s f.fid ++
        [Ev.cast h.hid f.fid, Ev.invoke h.hid f.fid]),
      dispatchEventsOk hs2 s f.fid ++
        Ev.cast h2.hid f.fid :: Ev.invoke h2.hid f.fid ::
          Ev.complete h2.hid f.fid ::
          (dispatchEventsOk hs3 s f.fid ++
            (consumeTrace (hs1 ++ h :: (hs2 ++ h2 :: hs3)) fs2).1),
      gtail, ?_⟩
    rw [key, hd]
    simp [List.append_assoc]

/-- Witness for C5 (amended): two always-matching handlers and two
concrete frames carrying a topic outside the cast error channels
instantiate the sequential-dispatch theorem. -/
theorem dispatch_sequential_witness :
    evBefore
      (consumeTrace ([] ++ ⟨0, fun _ => true⟩ :: [] ++
          ⟨1, fun _ => true⟩ :: [])
        ([] ++ ⟨0, some "T.MSFT", []⟩ :: [] ++
          ⟨1, some "T.MSFT", []⟩ :: [])).1
      (.complete 0 0) (.invoke 1 0) ∧
    evBefore
      (consumeTrace ([] ++ ⟨0, fun _ => true⟩ :: [] ++
          ⟨1, fun _ => true⟩ :: [])
        ([] ++ ⟨0, some "T.MSFT", []⟩ :: [] ++
          ⟨1, some "T.MSFT", []⟩ :: [])).1
      (.complete 0 0) (.read 1) :=
  dispatch_sequential [] [] [] ⟨0, fun _ => true⟩ ⟨1, fun _ => true⟩
    [] [] [] ⟨0, some "T.MSFT", []⟩ ⟨1, some "T.MSFT", []⟩ "T.MSFT"
    (.raw []) rfl rfl rfl rfl rfl rfl

/-- Counterexample for C9 as stated: a frame whose `stream` field is the
empty string is not dropped — `stream is not None` holds for the empty
string, so `_dispatch` runs and a handler whose pattern matches the empty
string (for instance one registered with the pattern `.*`) is invoked
(`_cast` of the empty channel is the raw passthrough, so nothing
raises). -/
theorem c9_counterexample :
    consumeTrace [⟨7, fun _ => true⟩] [⟨0, some "", []⟩] =
      ([.read 0, .cast 7 0, .invoke 7 0, .complete 7 0], none) ∧
    Ev.invoke 7 0 ∈ (consumeTrace [⟨7, fun _ => true⟩]
      [⟨0, some "", []⟩]).1 ∧
    ¬((consumeTrace [⟨7, fun _ => true⟩] [⟨0, some "", []⟩]).1 =
      [.read 0]) := by
  refine ⟨rfl, ?_, ?_⟩ <;> decide

/-- C9 (amended): only a frame whose `stream` field is absent is dropped
silently — its iteration contributes nothing but the read (no cast, no
invocation, no exception) and the loop continues with the following
frames; a frame whose `stream` field is present but empty is dispatched to
every handler whose pattern matches the empty string (the empty channel
casts to the raw passthrough, so the dispatch raises nothing).  Stated
after any prefix of traffic whose dispatches have not killed the loop. -/
theorem consume_drop_absent (handlers : List Handler)
    (fs1 fs2 : List Frame) (f f2 : Frame)
    (hok : (consumeTrace handlers fs1).2 = none)
    (hnone : f.stream = none) (hempty : f2.stream = some "") :
    consumeTrace handlers (fs1 ++ f :: fs2) =
      ((consumeTrace handlers fs1).1 ++
        Ev.read f.fid :: (consumeTrace handlers fs2).1,
        (consumeTrace handlers fs2).2) ∧
    consumeTrace handlers (fs1 ++ f2 :: fs2) =
      ((consumeTrace handlers fs1).1 ++
        Ev.read f2.fid ::
          (dispatchEventsOk handlers "" f2.fid ++
            (consumeTrace handlers fs2).1),
        (consumeTrace handlers fs2).2) := by
  constructor
  · rw [consumeTrace_append_ok handlers fs1 (f :: fs2) hok]
    have hft : frameTail handlers f = ([], none) := by
      simp [frameTail, hnone]
    simp [consumeTrace, hft]
  · rw [consumeTrace_append_ok handlers fs1 (f2 :: fs2) hok]
    have hft2 : frameTail handlers f2 =
        (dispatchEventsOk handlers "" f2.fid, none) := by
      simp only [frameTail, hempty]
      exact dispatchTrace_ok handlers "" f2.data f2.fid (.raw f2.data) rfl
    simp [consumeTrace, hft2]

/-- Witness for C9 (amended): one topicless frame between two data frames
is dropped, and an empty-topic frame in the same position is dispatched to
an always-matching handler. -/
theorem consume_drop_absent_witness :
    consumeTrace [⟨3, fun _ => true⟩]
        ([⟨0, some "Q.AAPL", []⟩] ++ ⟨1, none, []⟩ ::
          [⟨2, some "Q.AAPL", []⟩]) =
      ((consumeTrace [⟨3, fun _ => true⟩] [⟨0, some "Q.AAPL", []⟩]).1 ++
        Ev.read 1 ::
          (consumeTrace [⟨3, fun _ => true⟩] [⟨2, some "Q.AAPL", []⟩]).1,
        (consumeTrace [⟨3, fun _ => true⟩]
          [⟨2, some "Q.AAPL", []⟩]).2) ∧
    consumeTrace [⟨3, fun _ => true⟩]
        ([⟨0, some "Q.AAPL", []⟩] ++ ⟨1, some "", []⟩ ::
          [⟨2, some "Q.AAPL", []⟩]) =
      ((consumeTrace [⟨3, fun _ => true⟩] [⟨0, some "Q.AAPL", []⟩]).1 ++
        Ev.read 1 ::
          (dispatchEventsOk [⟨3, fun _ => true⟩] "" 1 ++
            (consumeTrace [⟨3, fun _ => true⟩]
              [⟨2, some "Q.AAPL", []⟩]).1),
        (consumeTrace [⟨3, fun _ => true⟩]
          [⟨2, some "Q.AAPL", []⟩]).2) :=
  consume_drop_absent [⟨3, fun _ => true⟩] [⟨0, some "Q.AAPL", []⟩]
    [⟨2, some "Q.AAPL", []⟩] ⟨1, none, []⟩ ⟨1, some "", []⟩ rfl rfl rfl

/-- C6 (code bug): the payload caster is neither total on its topic
families nor family-based.  On the exact channel `T` it raises `NameError`
(`psm` is unbound), on the prefixed topic `Q.AAPL` — the claimed quote
family — it does not build a quote event but passes the payload through
raw, while the exact-name trading topics still cast. -/
theorem c6_cast_bug :
    castData "T" [("price", "100")] = .error .nameError ∧
    castData "Q" [("bid", "1")] = .error .nameError ∧
    castData "Q.AAPL" [("bid", "1")] = .ok (.raw [("bid", "1")]) ∧
    castData "trade_updates" [("event", "fill")] =
      .ok (.tradeUpdate [("event", "fill")]) :=
  ⟨rfl, rfl, rfl, rfl⟩

/-- A Python callable passed to `register`: `fid` identifies the function
object, `isCoroutine` is `asyncio.iscoroutinefunction(func)`. -/
structure PyFunc where
  fid : Nat
  isCoroutine : Bool
deriving DecidableEq

/-- A compiled pattern, identified by the pattern object used as dict
key. -/
abbrev PatternId := Nat

/-- The two handler dicts a `_StreamConn` (and the multiplexer itself)
keeps: `self._handlers` maps pattern to callable, `self._handler_symbols`
maps callable to its optional symbol list.  Python dicts preserve
insertion order, hence association lists. -/
structure HandlerMaps where
  handlers : List (PatternId × PyFunc)
  handlerSymbols : List (PyFunc × Option (List String))
deriving DecidableEq

/-- The handler state `StreamConn.register` touches: the central maps and
those of the trading and data sessions. -/
structure MuxState where
  own : HandlerMaps
  trading : HandlerMaps
  data : HandlerMaps
deriving DecidableEq

/-- Insertion-ordered dict assignment `d[k] = v`: overwrite in place when
the key exists, append otherwise. -/
def dictInsert {κ ν : Type} [DecidableEq κ] (d : List (κ × ν)) (k : κ)
    (v : ν) : List (κ × ν) :=
  if k ∈ d.map Prod.fst then
    d.map (fun kv => if kv.1 = k then (k, v) else kv)
  else d ++ [(k, v)]

/-- `_StreamConn.register`: the `asyncio.iscoroutinefunction` check raises
`ValueError` before either map is touched; on success both maps are
updated. -/
def sessionRegister (m : HandlerMaps) (pat : PatternId) (f : PyFunc)
    (symbols : Option (List String)) : HandlerMaps × Option PyError :=
  if f.isCoroutine = false then (m, some .valueError)
  else
    (⟨dictInsert m.handlers pat f, dictInsert m.handlerSymbols f symbols⟩,
      none)

/-- `StreamConn.register`: the same check first; on success it updates the
central maps and then propagates the registration to
`self.trading_ws.register` and `self.data_ws.register`. -/
def muxRegister (st : MuxState) (pat : PatternId) (f : PyFunc)
    (symbols : Option (List String)) : MuxState × Option PyError :=
  if f.isCoroutine = false then (st, some .valueError)
  else
    (⟨⟨dictInsert st.own.handlers pat f,
        dictInsert st.own.handlerSymbols f symbols⟩,
      (sessionRegister st.trading pat f symbols).1,
      (sessionRegister st.data pat f symbols).1⟩, none)

/-- C10: registering a non-coroutine handler fails atomically.  Both
`StreamConn.register` and `_StreamConn.register` test
`asyncio.iscoroutinefunction` before any assignment, so the `ValueError`
leaves the handler map and handler-symbol map of the multiplexer and of
both underlying sessions exactly as they were. -/
theorem register_non_coroutine_atomic (st : MuxState) (m : HandlerMaps)
    (pat : PatternId) (f : PyFunc) (symbols : Option (List String))
    (h : f.isCoroutine = false) :
    muxRegister st pat f symbols = (st, some .valueError) ∧
    sessionRegister m pat f symbols = (m, some .valueError) := by
  constructor <;> simp [muxRegister, sessionRegister, h]

/-- Witness for C10: a concrete non-coroutine callable is rejected by both
register surfaces with every map untouched. -/
theorem register_non_coroutine_atomic_witness :
    muxRegister ⟨⟨[], []⟩, ⟨[], []⟩, ⟨[], []⟩⟩ 0 ⟨5, false⟩ none =
      (⟨⟨[], []⟩, ⟨[], []⟩, ⟨[], []⟩⟩, some PyError.valueError) ∧
    sessionRegister ⟨[(1, ⟨9, true⟩)], []⟩ 0 ⟨5, false⟩ none =
      (⟨[(1, ⟨9, true⟩)], []⟩, some PyError.valueError) :=
  register_non_coroutine_atomic ⟨⟨[], []⟩, ⟨[], []⟩, ⟨[], []⟩⟩
    ⟨[(1, ⟨9, true⟩)], []⟩ 0 ⟨5, false⟩ none rfl

end Stream2

